import Mathlib

/-!
Shallow embedding of the interactive shell core of `solana-playground`
(`PgShell` in `src/unnamed/part_004`, command names from
`src/unnamed/part_003`).  Collaborator modules that are not part of the
sources (`PgTty`, `shell-utils`, `shell-history`, `PgWallet`,
`PgTerminal`) are modelled from the specification where a claim needs
them; every such definition carries a doc comment saying so.
-/

namespace SolPg

/-- Clamp a JavaScript number index into `[0, len]` and convert to `Nat`,
following the `ToIntegerOrInfinity`/clamp step of `String.prototype.substring`. -/
def clampIdx (n : Int) (len : Nat) : Nat :=
  (max 0 (min n (len : Int))).toNat

/-- JavaScript `s.substring(a, b)`: both indices are clamped into
`[0, s.length]` and swapped when `a > b`. -/
def jsSubstring (s : String) (a b : Int) : String :=
  let i := clampIdx a s.length
  let j := clampIdx b s.length
  String.mk ((s.data.drop (min i j)).take (max i j - min i j))

/-- JavaScript `s.substring(a)`: the one-argument form, with `end`
defaulting to the string length. -/
def jsSubstringFrom (s : String) (a : Int) : String :=
  jsSubstring s a s.length

/-- State of the rendering surface that the shell edits through.
Modelled from the spec: the rendering sink exposes "get/set visible input
text, get/set cursor column" (§6); the cursor is a JavaScript number, kept
as `Int`. -/
structure TtyState where
  input : String
  cursor : Int
  firstInit : Bool
  promptStr : String
deriving Repr, DecidableEq

/-- `PgShell._handleCursorMove`: move the cursor by `dir`, clamped so it
stays within the current input line. -/
def handleCursorMove (t : TtyState) (dir : Int) : TtyState :=
  if 0 < dir then
    let num := min dir ((t.input.length : Int) - t.cursor)
    { t with cursor := t.cursor + num }
  else if dir < 0 then
    let num := max dir (-t.cursor)
    { t with cursor := t.cursor + num }
  else t

/-- `PgShell._handleCursorInsert`: splice `data` into the input at the
cursor and advance the cursor by `data.length`. -/
def handleCursorInsert (t : TtyState) (data : String) : TtyState :=
  let newInput :=
    jsSubstring t.input 0 t.cursor ++ data ++ jsSubstringFrom t.input t.cursor
  { t with cursor := t.cursor + data.length, input := newInput }

/-- `PgShell._handleCursorErase`: backspace erases the character left of
the cursor (a no-op when the cursor is at offset `0` or less), forward
delete removes the character under the cursor. -/
def handleCursorErase (t : TtyState) (backspace : Bool) : TtyState :=
  if backspace then
    if t.cursor ≤ 0 then t
    else
      let newInput :=
        jsSubstring t.input 0 (t.cursor - 1) ++ jsSubstringFrom t.input t.cursor
      { t with cursor := t.cursor - 1, input := newInput }
  else
    let newInput :=
      jsSubstring t.input 0 t.cursor ++ jsSubstringFrom t.input (t.cursor + 1)
    { t with input := newInput }

/-- One line-editing operation of the kind claim C9 quantifies over. -/
inductive EditOp where
  | move (dir : Int)
  | insert (data : String)
  | erase (backspace : Bool)
deriving Repr

/-- Apply one editing operation to the tty state. -/
def applyOp (t : TtyState) : EditOp → TtyState
  | .move dir => handleCursorMove t dir
  | .insert data => handleCursorInsert t data
  | .erase b => handleCursorErase t b

/-- Apply a sequence of editing operations from left to right. -/
def applyOps (t : TtyState) (ops : List EditOp) : TtyState :=
  ops.foldl applyOp t

/-- The cursor-bounds invariant of claim C9: the cursor offset lies in
`[0, length of the current input]`. -/
def TtyInv (t : TtyState) : Prop :=
  0 ≤ t.cursor ∧ t.cursor ≤ t.input.length

instance : DecidablePred TtyInv := fun t => by
  unfold TtyInv; infer_instance

theorem jsSubstring_length (s : String) (a b : Int) :
    (jsSubstring s a b).length =
      max (clampIdx a s.length) (clampIdx b s.length) -
        min (clampIdx a s.length) (clampIdx b s.length) := by
  have hlen : s.length = s.data.length := rfl
  have ha : clampIdx a s.length ≤ s.length := by
    unfold clampIdx; omega
  have hb : clampIdx b s.length ≤ s.length := by
    unfold clampIdx; omega
  simp only [jsSubstring, String.length_mk, List.length_take, List.length_drop]
  omega

theorem clampIdx_of_le {a : Int} {len : Nat} (h0 : 0 ≤ a) (h1 : a ≤ len) :
    clampIdx a len = a.toNat := by
  unfold clampIdx; omega

theorem jsSubstring_zero_length {s : String} {a : Int} (h0 : 0 ≤ a)
    (h1 : a ≤ s.length) : (jsSubstring s 0 a).length = a.toNat := by
  rw [jsSubstring_length, clampIdx_of_le h0 h1]
  unfold clampIdx
  omega

theorem jsSubstringFrom_length_eq (s : String) (a : Int) :
    (jsSubstringFrom s a).length = s.length - clampIdx a s.length := by
  rw [jsSubstringFrom, jsSubstring_length]
  have h1 : clampIdx a s.length ≤ s.length := by unfold clampIdx; omega
  have h2 : clampIdx (s.length : Int) s.length = s.length := by
    unfold clampIdx; omega
  omega

theorem jsSubstringFrom_length {s : String} {a : Int} (h0 : 0 ≤ a)
    (h1 : a ≤ s.length) :
    (jsSubstringFrom s a).length = s.length - a.toNat := by
  rw [jsSubstringFrom_length_eq, clampIdx_of_le h0 h1]

theorem move_preserves (t : TtyState) (h : TtyInv t) (dir : Int) :
    TtyInv (handleCursorMove t dir) ∧
      (handleCursorMove t dir).input = t.input := by
  obtain ⟨h0, h1⟩ := h
  unfold handleCursorMove
  split
  · constructor
    · constructor <;> simp <;> omega
    · simp
  · split
    · constructor
      · constructor <;> simp <;> omega
      · simp
    · exact ⟨⟨h0, h1⟩, rfl⟩

theorem insert_shape (t : TtyState) (h : TtyInv t) (data : String) :
    (handleCursorInsert t data).cursor = t.cursor + data.length ∧
      (handleCursorInsert t data).input.length =
        t.input.length + data.length := by
  obtain ⟨h0, h1⟩ := h
  refine ⟨rfl, ?_⟩
  show (jsSubstring t.input 0 t.cursor ++ data ++
      jsSubstringFrom t.input t.cursor).length = _
  rw [String.length_append, String.length_append,
    jsSubstring_zero_length h0 h1, jsSubstringFrom_length h0 h1]
  omega

theorem insert_preserves (t : TtyState) (h : TtyInv t) (data : String) :
    TtyInv (handleCursorInsert t data) := by
  obtain ⟨hc, hi⟩ := insert_shape t h data
  obtain ⟨h0, h1⟩ := h
  constructor
  · rw [hc]; omega
  · rw [hc, hi]; omega

theorem erase_preserves (t : TtyState) (h : TtyInv t) (b : Bool) :
    TtyInv (handleCursorErase t b) := by
  obtain ⟨h0, h1⟩ := h
  unfold handleCursorErase
  split
  · split
    · exact ⟨h0, h1⟩
    · rename_i hpos
      constructor
      · simp; omega
      · show t.cursor - 1 ≤ ((jsSubstring t.input 0 (t.cursor - 1) ++
          jsSubstringFrom t.input t.cursor).length : Int)
        rw [String.length_append,
          jsSubstring_zero_length (by omega) (by omega),
          jsSubstringFrom_length h0 h1]
        omega
  · refine ⟨h0, ?_⟩
    show t.cursor ≤ ((jsSubstring t.input 0 t.cursor ++
        jsSubstringFrom t.input (t.cursor + 1)).length : Int)
    rw [String.length_append, jsSubstring_zero_length h0 h1,
      jsSubstringFrom_length_eq]
    unfold clampIdx
    omega

theorem applyOp_preserves (t : TtyState) (h : TtyInv t) (op : EditOp) :
    TtyInv (applyOp t op) := by
  cases op with
  | move dir => exact (move_preserves t h dir).1
  | insert data => exact insert_preserves t h data
  | erase b => exact erase_preserves t h b

theorem applyOps_preserves (ops : List EditOp) :
    ∀ t : TtyState, TtyInv t → TtyInv (applyOps t ops) := by
  induction ops with
  | nil => intro t h; exact h
  | cons op rest ih =>
    intro t h
    exact ih (applyOp t op) (applyOp_preserves t h op)

/-- Modelled from the spec: `hasTrailingWhitespace` lives in
`shell-utils`, which is not under the sources; per §4.2 it reports whether
the input fragment "already ends in whitespace". -/
def hasTrailingWhitespace (s : String) : Bool :=
  match s.data.getLast? with
  | some c => c.isWhitespace
  | none => false

/-- Whether index `i` starts a word: a non-whitespace character preceded
by whitespace or the line start (§4.1: "word" is a maximal run of
non-whitespace). -/
def isWordStart (cs : List Char) (i : Nat) : Bool :=
  !(cs.getD i ' ').isWhitespace &&
    (i = 0 || (cs.getD (i - 1) ' ').isWhitespace)

/-- Modelled from the spec: `closestLeftBoundary` lives in `shell-utils`,
which is not under the sources; per §4.1 it scans left from the cursor for
the nearest boundary between a non-whitespace run and whitespace/start,
i.e. the largest word-start index strictly left of the cursor, `0` when
there is none. -/
def closestLeftBoundary (input : String) (cursor : Int) : Nat :=
  ((List.range input.length).filter
      (fun i => isWordStart input.data i && decide ((i : Int) < cursor))).foldl
    max 0

/-- Whether index `j` ends a word: the position just right of a
non-whitespace character that is followed by whitespace or the line end. -/
def isWordEnd (cs : List Char) (j : Nat) : Bool :=
  0 < j && !(cs.getD (j - 1) ' ').isWhitespace &&
    (j = cs.length || (cs.getD j ' ').isWhitespace)

/-- Modelled from the spec: `closestRightBoundary` lives in `shell-utils`,
which is not under the sources; per §4.1 it scans right from the cursor
for the nearest boundary between a non-whitespace run and whitespace/end,
i.e. the smallest word-end index strictly right of the cursor, the line
length when there is none. -/
def closestRightBoundary (input : String) (cursor : Int) : Nat :=
  (((List.range (input.length + 1)).filter
      (fun j => isWordEnd input.data j && decide (cursor < (j : Int)))).headD
    input.length)

/-- JavaScript `s.trim()`: strip leading and trailing whitespace. -/
def jsTrim (s : String) : String :=
  String.mk
    (((s.data.dropWhile Char.isWhitespace).reverse.dropWhile
        Char.isWhitespace).reverse)

/-- JavaScript `s.split(" ")`: split at every single space character,
keeping empty pieces. -/
def jsSplitOnSpace : List Char → List String
  | [] => [""]
  | c :: rest =>
      let r := jsSplitOnSpace rest
      if c = ' ' then "" :: r
      else
        match r with
        | [] => [String.mk [c]]
        | t :: ts => String.mk (c :: t.data) :: ts

/-- Modelled from the spec: `collectAutocompleteCandidates` lives in
`shell-utils`, which is not under the sources; per §3 an autocomplete
provider maps "(cursor token index, token list)" to candidate strings and
the registered providers' "results are concatenated". -/
def collectAutocompleteCandidates
    (handlers : List (Nat → List String → List String)) (input : String) :
    List String :=
  let tokens := (jsSplitOnSpace input.data).filter (fun t => t ≠ "")
  let index :=
    if hasTrailingWhitespace input || tokens.length = 0 then tokens.length
    else tokens.length - 1
  handlers.foldl (fun acc fn => acc ++ fn index tokens) []

/-- Insert a string into a lexicographically sorted list of strings. -/
def insertSorted (x : String) : List String → List String
  | [] => [x]
  | y :: ys => if x ≤ y then x :: y :: ys else y :: insertSorted x ys

/-- JavaScript `candidates.sort()` on strings: sort into lexicographic
order (insertion sort). -/
def sortStr : List String → List String
  | [] => []
  | x :: xs => insertSorted x (sortStr xs)

/-- Modelled from the spec: `PgShellHistory` lives in `shell-history`,
which is not under the sources; per §3/§4.3 it is an ordered sequence of
past lines (oldest first) with a traversal cursor that is `none` except
during active traversal. -/
structure HistoryState where
  entries : List String
  cursor : Option Nat
deriving Repr, DecidableEq

/-- Modelled from the spec (§4.3): `getPrevious()` steps the traversal
cursor one step toward older entries, clamped at the oldest, returning
that entry, or none if already at the ring's start or the ring is empty. -/
def historyGetPrevious (h : HistoryState) : HistoryState × Option String :=
  if h.entries.length = 0 then (h, none)
  else
    match h.cursor with
    | none =>
        ({ h with cursor := some (h.entries.length - 1) }, h.entries.getLast?)
    | some 0 => (h, none)
    | some (i + 1) => ({ h with cursor := some i }, h.entries[i]?)

/-- Modelled from the spec (§4.3): `getNext()` steps toward newer entries
symmetrically, "returning empty-string semantics at the newest
boundary". -/
def historyGetNext (h : HistoryState) : HistoryState × Option String :=
  match h.cursor with
  | none => (h, some "")
  | some i =>
      if i + 1 < h.entries.length then
        ({ h with cursor := some (i + 1) }, h.entries[i + 1]?)
      else ({ h with cursor := none }, some "")

/-- One observable effect of a shell step: output to the rendering sink,
promise resolutions, dispatched events, terminal-state actions and lazy
package operations.  `enable` records a call to `PgShell.enable` (whose
body runs after a timeout and is therefore kept out of the synchronous
state transition). -/
inductive Effect where
  | print (s : String)
  | println (s : String)
  | printWide (cs : List String)
  | clearLine
  | clearTty
  | clearScreen
  | readLine (promptText : String)
  | readChar (msg : String)
  | resolvePrompt (input : String)
  | resolveChar (data : String)
  | resolveWait (input : String)
  | dispatchEvent (name : String)
  | setTerminalState (action : String)
  | logWasm (msg : String)
  | enable
  | loadPkg (name : String) (log : Bool)
  | runPkg (name : String) (cmd : String)
deriving Repr, DecidableEq

/-- External collaborators of the shell that are fixed per session:
the registered autocomplete providers and maximum display count
(constructor options), the externally supplied incomplete-input predicate
(`isIncompleteInput` of `shell-utils`, not under the sources, described by
§4.1 as "an externally supplied multi-line continuation predicate"), the
wallet-connected flag (`PgWallet`, not under the sources) and the
rendering sink's "visible input still starts with the prompt" test used by
`prompt()` (§4.4). -/
structure ShellConfig where
  handlers : List (Nat → List String → List String)
  maxAutocompleteEntries : Nat
  incomplete : String → Bool
  connected : Bool
  inputStartsWithPrompt : Bool

/-- The session state of `PgShell` (§3 "Session"), together with the
modelled tty state and history.  `activePrompt`/`activeCharPrompt` record
whether a line/char `PendingRead` is outstanding; `waitListener` records
the one-shot external listener registered by `waitForUserInput`. -/
structure ShellState where
  tty : TtyState
  active : Bool
  waitingForInput : Bool
  processCount : Nat
  loadedPkgs : List String
  activePrompt : Bool
  activeCharPrompt : Bool
  waitListener : Bool
  history : HistoryState
deriving Repr, DecidableEq

/-- Modelled from the spec: prompt marker printed by `prompt()`
(`PgTerminal.PROMPT_PREFIX`, not under the sources). -/
def promptMark : String := "$ "

/-- Modelled from the spec: prompt marker used while waiting for external
input (`PgTerminal.WAITING_INPUT_PROMPT_PREFIX`, not under the sources). -/
def waitingInputPromptMark : String := "? "

/-- Modelled from the spec: message marker printed by `waitForUserInput`
(`PgTerminal.WAITING_INPUT_MSG_PREFIX`, not under the sources). -/
def waitingInputMsgMark : String := "Waiting for input: "

/-- Modelled from the spec: `PgWallet.checkIsPgConnected` is not under
the sources.  Per §4.5/§7 a handler whose wallet precondition is unmet
"silently no-op[s] (after still calling `enable()`)": the check reports
whether the playground wallet is connected and, when it is not, releases
the prompt by calling `enable()`. -/
def checkIsPgConnected (connected : Bool) : Bool × List Effect :=
  if connected then (true, []) else (false, [Effect.enable])

/-- `PgShell.prompt`: a no-op when a line read is already outstanding and
the visible input still starts with the prompt, otherwise issues a new
line read and marks the shell active.  The asynchronous history push that
happens when the read later resolves is outside this synchronous step. -/
def promptStep (cfg : ShellConfig) (s : ShellState) :
    ShellState × List Effect :=
  if s.activePrompt ∧ cfg.inputStartsWithPrompt then (s, [])
  else
    let promptText :=
      if s.waitingForInput then waitingInputPromptMark else promptMark
    ({ s with activePrompt := true, active := true },
     [Effect.readLine promptText])

/-- The command list of `commands.ts` (`src/unnamed/part_003`). -/
def COMMANDS : List (String × String) :=
  [("build", "Build your program"),
   ("clear", "Clear terminal"),
   ("connect", "Toggle connection to Playground Wallet"),
   ("deploy", "Deploy your program"),
   ("solana", "Commands for interacting with Solana"),
   ("spl-token", "Commands related to SPL Token")]

/-- `fillWhitespace` of `commands.ts`: pad a command name to column 25. -/
def fillWhitespace (cmdLength : Nat) : String :=
  String.mk (List.replicate (25 - cmdLength) ' ')

/-- `PgCommand.help()` of `commands.ts`. -/
def helpText : String :=
  "COMMANDS:\n" ++
    COMMANDS.foldl
      (fun acc c =>
        acc ++ "    " ++ c.1 ++ fillWhitespace c.1.length ++ c.2 ++ "\n")
      ""

/-- Shared shape of the `SOLANA`/`SPL_TOKEN`/`SUGAR` dispatcher branches:
when the wallet precondition holds, mark the package loaded on first use
and load/run it (the marking runs synchronously before the first `await`
of the async body); otherwise the action is skipped.  Package name
strings (`PkgName`, not under the sources) are modelled after the command
names. -/
def runPkgCommand (cfg : ShellConfig) (s : ShellState) (cmd pkg : String) :
    ShellState × List Effect :=
  let (ok, ce) := checkIsPgConnected cfg.connected
  if ok then
    let initial := !(s.loadedPkgs.contains pkg)
    let s2 :=
      if initial then { s with loadedPkgs := pkg :: s.loadedPkgs } else s
    (s2, ce ++ [Effect.loadPkg pkg initial, Effect.runPkg pkg cmd])
  else (s, ce)

/-- `PgShell._parseCommand`: extract the first token of the trimmed line
and dispatch on it.  Command name strings come from `commands.ts`
(`src/unnamed/part_003`); the `PRETTIER`/`RUN`/`TEST`/`RUSTFMT`/`SUGAR`
constants referenced by the shell are absent from that file and their
string values are modelled after their member names.  `!!` recurses on
the last history entry; the recursion is bounded by `fuel`. -/
def parseCommand (cfg : ShellConfig) :
    Nat → ShellState → String → ShellState × List Effect
  | 0, s, _ => (s, [])
  | fuel + 1, s, cmd =>
    let cmdName := (jsSplitOnSpace (jsTrim cmd).data).headD ""
    if cmdName = "build" then (s, [Effect.setTerminalState "buildStart"])
    else if cmdName = "clear" then
      let (s2, pe) := promptStep cfg s
      (s2, Effect.clearTty :: Effect.clearScreen :: pe)
    else if cmdName = "connect" then
      (s, [Effect.setTerminalState "walletConnectOrSetupStart"])
    else if cmdName = "deploy" then
      let (ok, ce) := checkIsPgConnected cfg.connected
      if ok then (s, ce ++ [Effect.setTerminalState "deployStart"])
      else (s, ce)
    else if cmdName = "help" then (s, [Effect.logWasm helpText, Effect.enable])
    else if cmdName = "prettier" then (s, [Effect.dispatchEvent "EDITOR_FORMAT"])
    else if cmdName = "!!" then
      if s.history.entries.length = 0 then
        (s, [Effect.println "No previous command.", Effect.enable])
      else parseCommand cfg fuel s (s.history.entries.getLastD "")
    else if cmdName = "run" ∨ cmdName = "test" then
      (s, [Effect.dispatchEvent "CLIENT_RUN"])
    else if cmdName = "rustfmt" then (s, [Effect.dispatchEvent "EDITOR_FORMAT"])
    else if cmdName = "solana" then runPkgCommand cfg s cmd "solana-cli"
    else if cmdName = "spl-token" then runPkgCommand cfg s cmd "spl-token-cli"
    else if cmdName = "sugar" then runPkgCommand cfg s cmd "sugar-cli"
    else if cmdName ≠ "" then
      (s, [Effect.println ("Command '" ++ cmd ++ "' not found.\n"),
        Effect.enable])
    else (s, [Effect.enable])

/-- `PgShell.handleReadComplete`: resolve the outstanding line read with
the current input, emit the line break (or clear the line), deactivate
the shell, and either hand the input to the external wait listener (when
`waitingForInput`) or dispatch it as a command. -/
def handleReadComplete (cfg : ShellConfig) (fuel : Nat) (s : ShellState)
    (clearCmd : Bool) : ShellState × List Effect :=
  let input := s.tty.input
  let (s1, e1) :=
    if s.activePrompt then
      ({ s with activePrompt := false }, [Effect.resolvePrompt input])
    else (s, ([] : List Effect))
  let e2 := if clearCmd then [Effect.clearLine] else [Effect.print "\r\n"]
  let s2 := { s1 with active := false }
  if s2.waitingForInput then
    if s2.waitListener then
      ({ s2 with waitingForInput := false, waitListener := false },
       e1 ++ e2 ++ [Effect.dispatchEvent "TERMINAL_WAIT_FOR_INPUT",
         Effect.resolveWait input])
    else (s2, e1 ++ e2 ++ [Effect.dispatchEvent "TERMINAL_WAIT_FOR_INPUT"])
  else
    let (s3, e3) := parseCommand cfg fuel s2 input
    (s3, e1 ++ e2 ++ e3)

/-- The TAB branch of `PgShell._handleData`: collect autocomplete
candidates for the fragment left of the cursor, sort them, and act by
count (insert a space, complete, list, or ask for confirmation via a char
read). -/
def handleTab (cfg : ShellConfig) (s : ShellState) :
    ShellState × List Effect :=
  if 0 < cfg.handlers.length then
    let inputFragment := jsSubstring s.tty.input 0 s.tty.cursor
    let hasTrailingSpace := hasTrailingWhitespace inputFragment
    let candidates :=
      sortStr (collectAutocompleteCandidates cfg.handlers inputFragment)
    if candidates.length = 0 then
      if hasTrailingSpace then (s, [])
      else ({ s with tty := handleCursorInsert s.tty " " }, [])
    else if candidates.length = 1 then
      let c := candidates.headD ""
      ({ s with tty :=
          { s.tty with input := c, cursor := (c.length : Int) } }, [])
    else if candidates.length ≤ cfg.maxAutocompleteEntries then
      ({ s with tty := { s.tty with cursor := (s.tty.input.length : Int) } },
       [Effect.print "\r\n", Effect.printWide candidates])
    else
      ({ s with
          tty := { s.tty with cursor := (s.tty.input.length : Int) },
          activeCharPrompt := true },
       [Effect.print "\r\n",
        Effect.readChar ("Display all " ++ toString candidates.length ++
          " possibilities? (y or n)")])
  else ({ s with tty := handleCursorInsert s.tty "    " }, [])

/-- The ANSI escape-sequence cases of `PgShell._handleData`, keyed on the
data after the leading `0x1B` byte. -/
def handleEscape (s : ShellState) (suffix : String) :
    ShellState × List Effect :=
  if suffix = "[A" then
    let (h2, value) := historyGetPrevious s.history
    let s2 := { s with history := h2 }
    match value with
    | some v =>
        if v = "" then (s2, [])
        else
          ({ s2 with tty :=
              { s2.tty with input := v, cursor := (v.length : Int) } }, [])
    | none => (s2, [])
  else if suffix = "[B" then
    let (h2, value) := historyGetNext s.history
    let v := value.getD ""
    ({ s with
        history := h2,
        tty := { s.tty with input := v, cursor := (v.length : Int) } }, [])
  else if suffix = "[D" then ({ s with tty := handleCursorMove s.tty (-1) }, [])
  else if suffix = "[C" then ({ s with tty := handleCursorMove s.tty 1 }, [])
  else if suffix = "[3~" then
    ({ s with tty := handleCursorErase s.tty false }, [])
  else if suffix = "[F" then
    ({ s with tty := { s.tty with cursor := (s.tty.input.length : Int) } }, [])
  else if suffix = "[H" then ({ s with tty := { s.tty with cursor := 0 } }, [])
  else if suffix = "b" then
    let ofs := closestLeftBoundary s.tty.input s.tty.cursor
    if ofs ≠ 0 then
      ({ s with tty := { s.tty with cursor := (ofs : Int) } }, [])
    else (s, [])
  else if suffix = "f" then
    let ofs := closestRightBoundary s.tty.input s.tty.cursor
    if ofs ≠ 0 then
      ({ s with tty := { s.tty with cursor := (ofs : Int) } }, [])
    else (s, [])
  else if suffix = "\x7f" then
    let ofs := closestLeftBoundary s.tty.input s.tty.cursor
    if ofs ≠ 0 then
      ({ s with tty := { s.tty with
          input := jsSubstring s.tty.input 0 (ofs : Int) ++
            jsSubstringFrom s.tty.input s.tty.cursor,
          cursor := (ofs : Int) } }, [])
    else (s, [])
  else (s, [])

/-- The control-character cases of `PgShell._handleData` (first byte below
`0x20` or equal to `0x7F`), keyed on the whole data string. -/
def handleCtrl (cfg : ShellConfig) (fuel : Nat) (s : ShellState)
    (data : String) : ShellState × List Effect :=
  if data = "\r" then
    if cfg.incomplete s.tty.input then
      ({ s with tty := handleCursorInsert s.tty "\n" }, [])
    else handleReadComplete cfg fuel s false
  else if data = "\x7f" ∨ data = "\x08" ∨ data = "\x04" then
    ({ s with tty := handleCursorErase s.tty true }, [])
  else if data = "\t" then handleTab cfg s
  else if data = "\x01" then ({ s with tty := { s.tty with cursor := 0 } }, [])
  else if data = "\x02" then
    ({ s with tty := handleCursorMove s.tty (-1) }, [])
  else if data = "\x05" then
    ({ s with tty := { s.tty with cursor := (s.tty.input.length : Int) } }, [])
  else if data = "\x06" then ({ s with tty := handleCursorMove s.tty 1 }, [])
  else if data = "\x07" then
    let (h2, _) := historyGetPrevious s.history
    ({ s with history := h2, tty := { s.tty with input := "" } }, [])
  else if data = "\x0b" then
    let t1 := { s.tty with input := jsSubstring s.tty.input 0 s.tty.cursor }
    ({ s with tty := { t1 with cursor := (t1.input.length : Int) } }, [])
  else if data = "\x0e" then
    let (h2, value) := historyGetNext s.history
    let v := value.getD ""
    ({ s with
        history := h2,
        tty := { s.tty with input := v, cursor := (v.length : Int) } }, [])
  else if data = "\x10" then
    let (h2, value) := historyGetPrevious s.history
    let s2 := { s with history := h2 }
    match value with
    | some v =>
        if v = "" then (s2, [])
        else
          ({ s2 with tty :=
              { s2.tty with input := v, cursor := (v.length : Int) } }, [])
    | none => (s2, [])
  else if data = "\x15" then
    ({ s with tty := { s.tty with
        input := jsSubstringFrom s.tty.input s.tty.cursor, cursor := 0 } }, [])
  else (s, [])

/-- `PgShell._handleData`: handle one logical unit of terminal data.
Inactive shells only let the CTRL+C byte through; the unit is then
classified by its first byte as an escape sequence, a control character,
or a visible insertion. -/
def handleData (cfg : ShellConfig) (fuel : Nat) (s : ShellState)
    (data : String) : ShellState × List Effect :=
  if s.active = false ∧ data ≠ "\x03" then (s, [])
  else
    match data.data.head? with
    | none => ({ s with tty := handleCursorInsert s.tty data }, [])
    | some c0 =>
        if c0 = '\x1b' then handleEscape s (jsSubstringFrom data 1)
        else if c0.toNat < 32 ∨ c0.toNat = 0x7f then handleCtrl cfg fuel s data
        else ({ s with tty := handleCursorInsert s.tty data }, [])

/-- Whether a character belongs to the class `[\r\n]`. -/
def isCRLF (c : Char) : Bool := c = '\r' || c = '\n'

/-- Worker for `normNewlines`; the flag records whether the previous
character was part of a `[\r\n]+` run. -/
def normNewlinesAux : List Char → Bool → List Char
  | [], _ => []
  | c :: rest, inRun =>
      if isCRLF c then
        if inRun then normNewlinesAux rest true
        else '\r' :: normNewlinesAux rest true
      else c :: normNewlinesAux rest false

/-- JavaScript `data.replace(/[\r\n]+/g, "\r")`: every maximal run of
carriage-return/newline characters becomes a single carriage return. -/
def normNewlines (s : String) : String :=
  String.mk (normNewlinesAux s.data false)

/-- Feed characters one at a time to `handleData`, left to right,
accumulating effects (`Array.from(normData).forEach(...)`). -/
def feedChars (cfg : ShellConfig) (fuel : Nat) :
    ShellState → List Char → ShellState × List Effect
  | s, [] => (s, [])
  | s, c :: cs =>
      let r := handleData cfg fuel s (String.mk [c])
      let rest := feedChars cfg fuel r.1 cs
      (rest.1, r.2 ++ rest.2)

/-- `PgShell.handleTermData`: gate on the active flag, run the one-time
prompt-text initialization (the raw buffer line read from the rendering
sink is supplied as `bufLine`; the handler returns when it is absent),
satisfy a pending char read in priority, and otherwise expand pasted
blocks or handle the chunk as one unit. -/
def handleTermData (cfg : ShellConfig) (fuel : Nat) (s : ShellState)
    (bufLine : Option String) (data : String) : ShellState × List Effect :=
  if s.active = false ∧ data ≠ "\x03" then (s, [])
  else
    let init :=
      if s.tty.firstInit ∧ s.activePrompt then
        match bufLine with
        | none => none
        | some promptRead =>
            some { s with tty :=
              { s.tty with promptStr := promptRead, firstInit := false } }
      else some s
    match init with
    | none => (s, [])
    | some s1 =>
        if s1.activeCharPrompt then
          ({ s1 with activeCharPrompt := false },
           [Effect.resolveChar data, Effect.print "\r\n"])
        else if 3 < data.length ∧ data.data.head? ≠ some '\x1b' then
          feedChars cfg fuel s1 (normNewlines data).data
        else handleData cfg fuel s1 data

/-- `PgShell.waitForUserInput`: reject immediately when a wait is already
outstanding; otherwise enter waiting mode, print the message, release the
prompt and register the one-shot listener for the next submitted line.
The returned `Except` is the promise outcome of the call itself. -/
def waitForUserInput (s : ShellState) (msg : String) :
    ShellState × List Effect × Except String Unit :=
  if s.waitingForInput then (s, [], Except.error "Already waiting for input.")
  else
    ({ s with waitingForInput := true, waitListener := true },
     [Effect.clearLine, Effect.println (waitingInputMsgMark ++ msg),
      Effect.enable],
     Except.ok ())

theorem normNewlinesAux_not_crlf_head (rest : List Char)
    (h : ∀ c, rest.head? = some c → isCRLF c = false) (b : Bool) :
    normNewlinesAux rest b = normNewlinesAux rest false := by
  cases rest with
  | nil => rfl
  | cons c tl =>
      have hc := h c rfl
      simp [normNewlinesAux, hc]

theorem normNewlinesAux_run_true (run : List Char)
    (hall : ∀ c ∈ run, isCRLF c = true) (rest : List Char) :
    normNewlinesAux (run ++ rest) true = normNewlinesAux rest true := by
  induction run with
  | nil => rfl
  | cons c tl ih =>
      have hc := hall c (by simp)
      simp only [List.cons_append, normNewlinesAux, hc, if_true]
      exact ih fun x hx => hall x (by simp [hx])

theorem normNewlinesAux_run (run rest : List Char) (hne : run ≠ [])
    (hall : ∀ c ∈ run, isCRLF c = true)
    (hrest : ∀ c, rest.head? = some c → isCRLF c = false) :
    normNewlinesAux (run ++ rest) false = '\r' :: normNewlinesAux rest false := by
  cases run with
  | nil => exact absurd rfl hne
  | cons c tl =>
      have hc := hall c (by simp)
      simp only [List.cons_append, normNewlinesAux, hc, if_true, Bool.false_eq_true,
        if_false, List.append_eq]
      rw [normNewlinesAux_run_true tl (fun x hx => hall x (by simp [hx])) rest,
        normNewlinesAux_not_crlf_head rest hrest]

/-- Claim C9: starting from a cursor offset within `[0, length]`, every
sequence of cursor-move, character-insert and character-erase operations
keeps the cursor offset within `[0, length of the current input]`; cursor
moves are clamped to the line bounds (and do not change the input),
inserts advance the cursor by the inserted length within the grown line,
and backspace-erase at offset `0` is a no-op. -/
theorem editOps_cursor_in_bounds (t : TtyState) (h : TtyInv t) :
    (∀ ops : List EditOp, TtyInv (applyOps t ops)) ∧
      (∀ dir : Int, TtyInv (handleCursorMove t dir) ∧
        (handleCursorMove t dir).input = t.input) ∧
      (∀ data : String,
        (handleCursorInsert t data).cursor = t.cursor + data.length ∧
          (handleCursorInsert t data).input.length =
            t.input.length + data.length) ∧
      (t.cursor = 0 → handleCursorErase t true = t) := by
  refine ⟨fun ops => applyOps_preserves ops t h,
    fun dir => move_preserves t h dir,
    fun data => insert_shape t h data,
    fun h0 => ?_⟩
  unfold handleCursorErase
  simp [h0]

theorem editOps_cursor_in_bounds_witness :
    TtyInv ⟨"ab", 1, false, ""⟩ ∧
      ((∀ ops : List EditOp, TtyInv (applyOps ⟨"ab", 1, false, ""⟩ ops)) ∧
        (∀ dir : Int, TtyInv (handleCursorMove ⟨"ab", 1, false, ""⟩ dir) ∧
          (handleCursorMove ⟨"ab", 1, false, ""⟩ dir).input =
            (⟨"ab", 1, false, ""⟩ : TtyState).input) ∧
        (∀ data : String,
          (handleCursorInsert ⟨"ab", 1, false, ""⟩ data).cursor =
              (⟨"ab", 1, false, ""⟩ : TtyState).cursor + data.length ∧
            (handleCursorInsert ⟨"ab", 1, false, ""⟩ data).input.length =
              (⟨"ab", 1, false, ""⟩ : TtyState).input.length + data.length) ∧
        ((⟨"ab", 1, false, ""⟩ : TtyState).cursor = 0 →
          handleCursorErase ⟨"ab", 1, false, ""⟩ true = ⟨"ab", 1, false, ""⟩)) :=
  ⟨by decide, editOps_cursor_in_bounds ⟨"ab", 1, false, ""⟩ (by decide)⟩

/-- Claim C1: a second `waitForUserInput` issued while one is outstanding
is rejected immediately with "Already waiting for input.", produces no
effects and leaves the session state unchanged; from that unchanged state
the first outstanding request still resolves normally once a line is
submitted: completing the read leaves waiting mode and hands the submitted
line to the registered one-shot wait listener. -/
theorem waitForUserInput_overlap_rejected (s : ShellState) (msg : String)
    (hw : s.waitingForInput = true) :
    waitForUserInput s msg =
        (s, [], Except.error "Already waiting for input.") ∧
      (∀ (cfg : ShellConfig) (fuel : Nat) (t : TtyState),
        s.waitListener = true →
        (handleReadComplete cfg fuel { s with tty := t } false).1.waitingForInput
            = false ∧
          (handleReadComplete cfg fuel { s with tty := t } false).2 =
            (if s.activePrompt then [Effect.resolvePrompt t.input] else []) ++
              [Effect.print "\r\n",
                Effect.dispatchEvent "TERMINAL_WAIT_FOR_INPUT",
                Effect.resolveWait t.input]) := by
  constructor
  · unfold waitForUserInput
    simp [hw]
  · intro cfg fuel t hl
    by_cases hp : s.activePrompt <;>
      simp [handleReadComplete, hw, hl, hp]

theorem waitForUserInput_overlap_rejected_witness :
    (⟨⟨"ln", 0, false, ""⟩, true, true, 0, [], true, false, true,
        ⟨[], none⟩⟩ : ShellState).waitingForInput = true ∧
      (waitForUserInput
          ⟨⟨"ln", 0, false, ""⟩, true, true, 0, [], true, false, true,
            ⟨[], none⟩⟩ "msg" =
        (⟨⟨"ln", 0, false, ""⟩, true, true, 0, [], true, false, true,
            ⟨[], none⟩⟩, [], Except.error "Already waiting for input.") ∧
      (∀ (cfg : ShellConfig) (fuel : Nat) (t : TtyState),
        (⟨⟨"ln", 0, false, ""⟩, true, true, 0, [], true, false, true,
            ⟨[], none⟩⟩ : ShellState).waitListener = true →
        (handleReadComplete cfg fuel
            { (⟨⟨"ln", 0, false, ""⟩, true, true, 0, [], true, false, true,
                ⟨[], none⟩⟩ : ShellState) with tty := t }
            false).1.waitingForInput = false ∧
          (handleReadComplete cfg fuel
              { (⟨⟨"ln", 0, false, ""⟩, true, true, 0, [], true, false, true,
                  ⟨[], none⟩⟩ : ShellState) with tty := t } false).2 =
            (if (⟨⟨"ln", 0, false, ""⟩, true, true, 0, [], true, false, true,
                ⟨[], none⟩⟩ : ShellState).activePrompt then
              [Effect.resolvePrompt t.input] else []) ++
              [Effect.print "\r\n",
                Effect.dispatchEvent "TERMINAL_WAIT_FOR_INPUT",
                Effect.resolveWait t.input])) :=
  ⟨by decide,
    waitForUserInput_overlap_rejected
      ⟨⟨"ln", 0, false, ""⟩, true, true, 0, [], true, false, true, ⟨[], none⟩⟩
      "msg" (by decide)⟩

/-- Claim C2: when a dispatched command requires the wallet-connected
precondition (`deploy`, `solana`, `spl-token`) and the precondition is
unmet, the handler's action is silently skipped (no terminal-state action,
no package load or run, no state change) while `enable()` is still called
exactly once on that branch, releasing the prompt. -/
theorem parseCommand_unmet_precondition (cfg : ShellConfig) (fuel : Nat)
    (s : ShellState) (cmd : String) (hc : cfg.connected = false)
    (hname : (jsSplitOnSpace (jsTrim cmd).data).headD "" = "deploy" ∨
      (jsSplitOnSpace (jsTrim cmd).data).headD "" = "solana" ∨
      (jsSplitOnSpace (jsTrim cmd).data).headD "" = "spl-token") :
    parseCommand cfg (fuel + 1) s cmd = (s, [Effect.enable]) := by
  rcases hname with h | h | h <;>
    (simp only [parseCommand]; rw [h]) <;>
    simp [checkIsPgConnected, runPkgCommand, hc]

theorem data_head_cr : ("\r" : String).data.head? = some '\r' := rfl

theorem data_head_tab : ("\t" : String).data.head? = some '\t' := rfl

theorem data_head_etx : ("\x03" : String).data.head? = some '\x03' := rfl

theorem data_head_escb : ("\x1bb" : String).data.head? = some '\x1b' := rfl

theorem data_head_escdel :
    ("\x1b\x7f" : String).data.head? = some '\x1b' := rfl

theorem length_etx : ("\x03" : String).length = 1 := rfl

theorem suffix_escb : jsSubstringFrom "\x1bb" 1 = "b" := rfl

theorem suffix_escdel : jsSubstringFrom "\x1b\x7f" 1 = "\x7f" := rfl

/-- Claim C3: while the shell is active, no char read is pending and the
one-time prompt initialization is done, an input chunk is treated as a
pasted block iff its length exceeds `3` and its first character is not the
escape byte `0x1B`; in that case every maximal run of carriage-return or
newline characters is replaced by a single carriage return and each
character of the normalized string is fed individually, in order, to the
single-character handler; otherwise the whole chunk is handled as one
logical unit. -/
theorem handleTermData_paste_classification (cfg : ShellConfig) (fuel : Nat)
    (s : ShellState) (bufLine : Option String) (data : String)
    (hact : s.active = true) (hchar : s.activeCharPrompt = false)
    (hinit : s.tty.firstInit = false) :
    ((3 < data.length ∧ data.data.head? ≠ some '\x1b') →
        handleTermData cfg fuel s bufLine data =
          feedChars cfg fuel s (normNewlines data).data) ∧
      (¬(3 < data.length ∧ data.data.head? ≠ some '\x1b') →
        handleTermData cfg fuel s bufLine data = handleData cfg fuel s data) ∧
      (∀ run rest : List Char, run ≠ [] → (∀ c ∈ run, isCRLF c = true) →
        (∀ c, rest.head? = some c → isCRLF c = false) →
        normNewlinesAux (run ++ rest) false =
          '\r' :: normNewlinesAux rest false) ∧
      (∀ (c : Char) (rest : List Char), isCRLF c = false →
        normNewlinesAux (c :: rest) false = c :: normNewlinesAux rest false) ∧
      (∀ (s2 : ShellState) (c : Char) (cs : List Char),
        feedChars cfg fuel s2 (c :: cs) =
          ((feedChars cfg fuel (handleData cfg fuel s2 (String.mk [c])).1
              cs).1,
            (handleData cfg fuel s2 (String.mk [c])).2 ++
              (feedChars cfg fuel (handleData cfg fuel s2 (String.mk [c])).1
                  cs).2)) := by
  refine ⟨?_, ?_,
    fun run rest h1 h2 h3 => normNewlinesAux_run run rest h1 h2 h3,
    fun c rest hcr => by simp [normNewlinesAux, hcr],
    fun s2 c cs => rfl⟩
  · intro hcond
    simp [handleTermData, hact, hchar, hinit, hcond]
  · intro hcond
    simp [handleTermData, hact, hchar, hinit, hcond]

theorem handleTermData_paste_classification_witness :
    (⟨⟨"", 0, false, ""⟩, true, false, 0, [], true, false, false,
        ⟨[], none⟩⟩ : ShellState).active = true ∧
      (⟨⟨"", 0, false, ""⟩, true, false, 0, [], true, false, false,
          ⟨[], none⟩⟩ : ShellState).activeCharPrompt = false ∧
      (⟨⟨"", 0, false, ""⟩, true, false, 0, [], true, false, false,
          ⟨[], none⟩⟩ : ShellState).tty.firstInit = false ∧
      (((3 < ("ab\ncd" : String).length ∧
          ("ab\ncd" : String).data.head? ≠ some '\x1b') →
        handleTermData ⟨[], 100, fun _ => false, true, false⟩ 5
            ⟨⟨"", 0, false, ""⟩, true, false, 0, [], true, false, false,
              ⟨[], none⟩⟩ none "ab\ncd" =
          feedChars ⟨[], 100, fun _ => false, true, false⟩ 5
            ⟨⟨"", 0, false, ""⟩, true, false, 0, [], true, false, false,
              ⟨[], none⟩⟩ (normNewlines "ab\ncd").data) ∧
      (¬(3 < ("ab\ncd" : String).length ∧
          ("ab\ncd" : String).data.head? ≠ some '\x1b') →
        handleTermData ⟨[], 100, fun _ => false, true, false⟩ 5
            ⟨⟨"", 0, false, ""⟩, true, false, 0, [], true, false, false,
              ⟨[], none⟩⟩ none "ab\ncd" =
          handleData ⟨[], 100, fun _ => false, true, false⟩ 5
            ⟨⟨"", 0, false, ""⟩, true, false, 0, [], true, false, false,
              ⟨[], none⟩⟩ "ab\ncd") ∧
      (∀ run rest : List Char, run ≠ [] → (∀ c ∈ run, isCRLF c = true) →
        (∀ c, rest.head? = some c → isCRLF c = false) →
        normNewlinesAux (run ++ rest) false =
          '\r' :: normNewlinesAux rest false) ∧
      (∀ (c : Char) (rest : List Char), isCRLF c = false →
        normNewlinesAux (c :: rest) false = c :: normNewlinesAux rest false) ∧
      (∀ (s2 : ShellState) (c : Char) (cs : List Char),
        feedChars ⟨[], 100, fun _ => false, true, false⟩ 5 s2 (c :: cs) =
          ((feedChars ⟨[], 100, fun _ => false, true, false⟩ 5
              (handleData ⟨[], 100, fun _ => false, true, false⟩ 5 s2
                  (String.mk [c])).1 cs).1,
            (handleData ⟨[], 100, fun _ => false, true, false⟩ 5 s2
                (String.mk [c])).2 ++
              (feedChars ⟨[], 100, fun _ => false, true, false⟩ 5
                  (handleData ⟨[], 100, fun _ => false, true, false⟩ 5 s2
                      (String.mk [c])).1 cs).2))) :=
  ⟨rfl, rfl, rfl,
    handleTermData_paste_classification ⟨[], 100, fun _ => false, true, false⟩
      5 ⟨⟨"", 0, false, ""⟩, true, false, 0, [], true, false, false,
        ⟨[], none⟩⟩ none "ab\ncd" rfl rfl rfl⟩

/-- Claim C4: when ENTER is handled on an active shell, if the externally
supplied incomplete-input predicate accepts the current line a literal
newline is inserted at the cursor and the line is not submitted (no
pending read is resolved, no effects are produced); otherwise submission
is triggered via `handleReadComplete`. -/
theorem handleData_enter_incomplete_or_submit (cfg : ShellConfig)
    (fuel : Nat) (s : ShellState) (hact : s.active = true) :
    (cfg.incomplete s.tty.input = true →
        handleData cfg fuel s "\r" =
          ({ s with tty := handleCursorInsert s.tty "\n" }, [])) ∧
      (cfg.incomplete s.tty.input = false →
        handleData cfg fuel s "\r" = handleReadComplete cfg fuel s false) := by
  constructor <;> intro hin <;>
    simp [handleData, handleCtrl, hact, hin, data_head_cr]

theorem handleData_enter_incomplete_or_submit_witness :
    (⟨⟨"(a", 2, false, ""⟩, true, false, 0, [], true, false, false,
        ⟨[], none⟩⟩ : ShellState).active = true ∧
      (((⟨[], 100, fun _ => true, true, false⟩ : ShellConfig).incomplete
          (⟨⟨"(a", 2, false, ""⟩, true, false, 0, [], true, false, false,
            ⟨[], none⟩⟩ : ShellState).tty.input = true →
        handleData ⟨[], 100, fun _ => true, true, false⟩ 5
            ⟨⟨"(a", 2, false, ""⟩, true, false, 0, [], true, false, false,
              ⟨[], none⟩⟩ "\r" =
          ({ (⟨⟨"(a", 2, false, ""⟩, true, false, 0, [], true, false, false,
              ⟨[], none⟩⟩ : ShellState) with
              tty := handleCursorInsert ⟨"(a", 2, false, ""⟩ "\n" }, [])) ∧
      ((⟨[], 100, fun _ => true, true, false⟩ : ShellConfig).incomplete
          (⟨⟨"(a", 2, false, ""⟩, true, false, 0, [], true, false, false,
            ⟨[], none⟩⟩ : ShellState).tty.input = false →
        handleData ⟨[], 100, fun _ => true, true, false⟩ 5
            ⟨⟨"(a", 2, false, ""⟩, true, false, 0, [], true, false, false,
              ⟨[], none⟩⟩ "\r" =
          handleReadComplete ⟨[], 100, fun _ => true, true, false⟩ 5
            ⟨⟨"(a", 2, false, ""⟩, true, false, 0, [], true, false, false,
              ⟨[], none⟩⟩ false)) :=
  ⟨rfl,
    handleData_enter_incomplete_or_submit
      ⟨[], 100, fun _ => true, true, false⟩ 5
      ⟨⟨"(a", 2, false, ""⟩, true, false, 0, [], true, false, false,
        ⟨[], none⟩⟩ rfl⟩

/-- Claim C5: when TAB is handled on an active shell and the sorted
candidate list collected for the fragment left of the cursor has exactly
one element, the entire input line is replaced by that candidate and the
cursor is set to the candidate's length, regardless of the prior cursor
position. -/
theorem handleData_tab_single_candidate (cfg : ShellConfig) (fuel : Nat)
    (s : ShellState) (c : String) (hact : s.active = true)
    (hh : 0 < cfg.handlers.length)
    (hc : sortStr (collectAutocompleteCandidates cfg.handlers
        (jsSubstring s.tty.input 0 s.tty.cursor)) = [c]) :
    handleData cfg fuel s "\t" =
      ({ s with tty :=
          { s.tty with input := c, cursor := (c.length : Int) } }, []) := by
  simp [handleData, handleCtrl, handleTab, hact, hh, hc, data_head_tab]

theorem handleData_tab_single_candidate_witness :
    (⟨⟨"hel", 1, false, ""⟩, true, false, 0, [], true, false, false,
        ⟨[], none⟩⟩ : ShellState).active = true ∧
      0 < (⟨[fun _ _ => ["help"]], 100, fun _ => false, true, false⟩ :
          ShellConfig).handlers.length ∧
      sortStr (collectAutocompleteCandidates
          (⟨[fun _ _ => ["help"]], 100, fun _ => false, true, false⟩ :
            ShellConfig).handlers
          (jsSubstring
            (⟨⟨"hel", 1, false, ""⟩, true, false, 0, [], true, false, false,
              ⟨[], none⟩⟩ : ShellState).tty.input 0
            (⟨⟨"hel", 1, false, ""⟩, true, false, 0, [], true, false, false,
              ⟨[], none⟩⟩ : ShellState).tty.cursor)) = ["help"] ∧
      handleData ⟨[fun _ _ => ["help"]], 100, fun _ => false, true, false⟩ 5
          ⟨⟨"hel", 1, false, ""⟩, true, false, 0, [], true, false, false,
            ⟨[], none⟩⟩ "\t" =
        ({ (⟨⟨"hel", 1, false, ""⟩, true, false, 0, [], true, false, false,
            ⟨[], none⟩⟩ : ShellState) with
            tty := { (⟨"hel", 1, false, ""⟩ : TtyState) with
              input := "help", cursor := (("help" : String).length : Int) } },
          []) :=
  ⟨rfl, by decide, by decide,
    handleData_tab_single_candidate
      ⟨[fun _ _ => ["help"]], 100, fun _ => false, true, false⟩ 5
      ⟨⟨"hel", 1, false, ""⟩, true, false, 0, [], true, false, false,
        ⟨[], none⟩⟩ "help" rfl (by decide) (by decide)⟩

/-- Claim C6: when TAB is handled on an active shell and the providers
yield zero candidates, nothing is mutated when the fragment from line
start to cursor already ends in whitespace, and exactly one space is
inserted at the cursor when it does not. -/
theorem handleData_tab_no_candidates (cfg : ShellConfig) (fuel : Nat)
    (s : ShellState) (hact : s.active = true)
    (hh : 0 < cfg.handlers.length)
    (hc : collectAutocompleteCandidates cfg.handlers
        (jsSubstring s.tty.input 0 s.tty.cursor) = []) :
    (hasTrailingWhitespace (jsSubstring s.tty.input 0 s.tty.cursor) = true →
        handleData cfg fuel s "\t" = (s, [])) ∧
      (hasTrailingWhitespace (jsSubstring s.tty.input 0 s.tty.cursor)
          = false →
        handleData cfg fuel s "\t" =
          ({ s with tty := handleCursorInsert s.tty " " }, [])) := by
  constructor <;> intro hw <;>
    simp [handleData, handleCtrl, handleTab, sortStr, hact, hh, hc, hw,
      data_head_tab]

theorem handleData_tab_no_candidates_witness :
    (⟨⟨"he ", 3, false, ""⟩, true, false, 0, [], true, false, false,
        ⟨[], none⟩⟩ : ShellState).active = true ∧
      0 < (⟨[fun _ _ => []], 100, fun _ => false, true, false⟩ :
          ShellConfig).handlers.length ∧
      collectAutocompleteCandidates
          (⟨[fun _ _ => []], 100, fun _ => false, true, false⟩ :
            ShellConfig).handlers
          (jsSubstring
            (⟨⟨"he ", 3, false, ""⟩, true, false, 0, [], true, false, false,
              ⟨[], none⟩⟩ : ShellState).tty.input 0
            (⟨⟨"he ", 3, false, ""⟩, true, false, 0, [], true, false, false,
              ⟨[], none⟩⟩ : ShellState).tty.cursor) = [] ∧
      ((hasTrailingWhitespace (jsSubstring
            (⟨⟨"he ", 3, false, ""⟩, true, false, 0, [], true, false, false,
              ⟨[], none⟩⟩ : ShellState).tty.input 0
            (⟨⟨"he ", 3, false, ""⟩, true, false, 0, [], true, false, false,
              ⟨[], none⟩⟩ : ShellState).tty.cursor) = true →
        handleData ⟨[fun _ _ => []], 100, fun _ => false, true, false⟩ 5
            ⟨⟨"he ", 3, false, ""⟩, true, false, 0, [], true, false, false,
              ⟨[], none⟩⟩ "\t" =
          (⟨⟨"he ", 3, false, ""⟩, true, false, 0, [], true, false, false,
            ⟨[], none⟩⟩, [])) ∧
      (hasTrailingWhitespace (jsSubstring
            (⟨⟨"he ", 3, false, ""⟩, true, false, 0, [], true, false, false,
              ⟨[], none⟩⟩ : ShellState).tty.input 0
            (⟨⟨"he ", 3, false, ""⟩, true, false, 0, [], true, false, false,
              ⟨[], none⟩⟩ : ShellState).tty.cursor) = false →
        handleData ⟨[fun _ _ => []], 100, fun _ => false, true, false⟩ 5
            ⟨⟨"he ", 3, false, ""⟩, true, false, 0, [], true, false, false,
              ⟨[], none⟩⟩ "\t" =
          ({ (⟨⟨"he ", 3, false, ""⟩, true, false, 0, [], true, false, false,
              ⟨[], none⟩⟩ : ShellState) with
              tty := handleCursorInsert ⟨"he ", 3, false, ""⟩ " " }, []))) :=
  ⟨rfl, by decide, by decide,
    handleData_tab_no_candidates
      ⟨[fun _ _ => []], 100, fun _ => false, true, false⟩ 5
      ⟨⟨"he ", 3, false, ""⟩, true, false, 0, [], true, false, false,
        ⟨[], none⟩⟩ rfl (by decide) (by decide)⟩

/-- Claim C7: while a char-level read is pending (on an active,
already-initialized shell), any incoming data chunk resolves the char read
with that chunk and clears it, followed by a line break; the chunk is not
paste-expanded, is not fed to the single-character handler, and neither
the input line nor the cursor is mutated. -/
theorem handleTermData_char_priority (cfg : ShellConfig) (fuel : Nat)
    (s : ShellState) (bufLine : Option String) (data : String)
    (hact : s.active = true) (hinit : s.tty.firstInit = false)
    (hchar : s.activeCharPrompt = true) :
    handleTermData cfg fuel s bufLine data =
      ({ s with activeCharPrompt := false },
        [Effect.resolveChar data, Effect.print "\r\n"]) := by
  simp [handleTermData, hact, hinit, hchar]

theorem handleTermData_char_priority_witness :
    (⟨⟨"abc", 2, false, ""⟩, true, false, 0, [], true, true, false,
        ⟨[], none⟩⟩ : ShellState).active = true ∧
      (⟨⟨"abc", 2, false, ""⟩, true, false, 0, [], true, true, false,
          ⟨[], none⟩⟩ : ShellState).tty.firstInit = false ∧
      (⟨⟨"abc", 2, false, ""⟩, true, false, 0, [], true, true, false,
          ⟨[], none⟩⟩ : ShellState).activeCharPrompt = true ∧
      handleTermData ⟨[], 100, fun _ => false, true, false⟩ 5
          ⟨⟨"abc", 2, false, ""⟩, true, false, 0, [], true, true, false,
            ⟨[], none⟩⟩ none "long paste data" =
        ({ (⟨⟨"abc", 2, false, ""⟩, true, false, 0, [], true, true, false,
            ⟨[], none⟩⟩ : ShellState) with activeCharPrompt := false },
          [Effect.resolveChar "long paste data", Effect.print "\r\n"]) :=
  ⟨rfl, rfl, rfl,
    handleTermData_char_priority ⟨[], 100, fun _ => false, true, false⟩ 5
      ⟨⟨"abc", 2, false, ""⟩, true, false, 0, [], true, true, false,
        ⟨[], none⟩⟩ none "long paste data" rfl rfl rfl⟩

/-- Claim C8: while the shell is inactive, every chunk other than the
single CTRL+C byte `0x03` is discarded with no state change and no
effects; the CTRL+C byte is let through the guard but (absent a pending
char read and with initialization done) no handler case is defined for it,
so it too changes nothing. -/
theorem handleTermData_inactive_guard (cfg : ShellConfig) (fuel : Nat)
    (s : ShellState) (bufLine : Option String) (hact : s.active = false) :
    (∀ data : String, data ≠ "\x03" →
        handleTermData cfg fuel s bufLine data = (s, [])) ∧
      (s.activeCharPrompt = false → s.tty.firstInit = false →
        handleTermData cfg fuel s bufLine "\x03" = (s, [])) := by
  constructor
  · intro data hd
    simp [handleTermData, hact, hd]
  · intro hchar hinit
    simp [handleTermData, handleData, handleCtrl, hact, hchar, hinit,
      data_head_etx, length_etx]

theorem handleTermData_inactive_guard_witness :
    (⟨⟨"x", 1, false, ""⟩, false, false, 0, [], false, false, false,
        ⟨[], none⟩⟩ : ShellState).active = false ∧
      ((∀ data : String, data ≠ "\x03" →
        handleTermData ⟨[], 100, fun _ => false, true, false⟩ 5
            ⟨⟨"x", 1, false, ""⟩, false, false, 0, [], false, false, false,
              ⟨[], none⟩⟩ none data =
          (⟨⟨"x", 1, false, ""⟩, false, false, 0, [], false, false, false,
            ⟨[], none⟩⟩, [])) ∧
      ((⟨⟨"x", 1, false, ""⟩, false, false, 0, [], false, false, false,
          ⟨[], none⟩⟩ : ShellState).activeCharPrompt = false →
        (⟨⟨"x", 1, false, ""⟩, false, false, 0, [], false, false, false,
          ⟨[], none⟩⟩ : ShellState).tty.firstInit = false →
        handleTermData ⟨[], 100, fun _ => false, true, false⟩ 5
            ⟨⟨"x", 1, false, ""⟩, false, false, 0, [], false, false, false,
              ⟨[], none⟩⟩ none "\x03" =
          (⟨⟨"x", 1, false, ""⟩, false, false, 0, [], false, false, false,
            ⟨[], none⟩⟩, []))) :=
  ⟨rfl,
    handleTermData_inactive_guard ⟨[], 100, fun _ => false, true, false⟩ 5
      ⟨⟨"x", 1, false, ""⟩, false, false, 0, [], false, false, false,
        ⟨[], none⟩⟩ none rfl⟩

/-- Claim C10: when the closest-left-word-boundary search returns offset
`0` for the current line and cursor, the ALT+LEFT handler leaves the
whole state unchanged and the CTRL+BACKSPACE handler deletes nothing,
because the boundary offset `0` is treated as falsy by the `if (ofs)`
guard. -/
theorem boundary_zero_guard_noop (cfg : ShellConfig) (fuel : Nat)
    (s : ShellState) (hact : s.active = true)
    (hofs : closestLeftBoundary s.tty.input s.tty.cursor = 0) :
    handleData cfg fuel s "\x1bb" = (s, []) ∧
      handleData cfg fuel s "\x1b\x7f" = (s, []) := by
  constructor <;>
    simp [handleData, handleEscape, hact, hofs, data_head_escb,
      data_head_escdel, suffix_escb, suffix_escdel]

theorem boundary_zero_guard_noop_witness :
    (⟨⟨"foo", 3, false, ""⟩, true, false, 0, [], true, false, false,
        ⟨[], none⟩⟩ : ShellState).active = true ∧
      closestLeftBoundary
          (⟨⟨"foo", 3, false, ""⟩, true, false, 0, [], true, false, false,
            ⟨[], none⟩⟩ : ShellState).tty.input
          (⟨⟨"foo", 3, false, ""⟩, true, false, 0, [], true, false, false,
            ⟨[], none⟩⟩ : ShellState).tty.cursor = 0 ∧
      (handleData ⟨[], 100, fun _ => false, true, false⟩ 5
          ⟨⟨"foo", 3, false, ""⟩, true, false, 0, [], true, false, false,
            ⟨[], none⟩⟩ "\x1bb" =
        (⟨⟨"foo", 3, false, ""⟩, true, false, 0, [], true, false, false,
          ⟨[], none⟩⟩, []) ∧
      handleData ⟨[], 100, fun _ => false, true, false⟩ 5
          ⟨⟨"foo", 3, false, ""⟩, true, false, 0, [], true, false, false,
            ⟨[], none⟩⟩ "\x1b\x7f" =
        (⟨⟨"foo", 3, false, ""⟩, true, false, 0, [], true, false, false,
          ⟨[], none⟩⟩, [])) :=
  ⟨rfl, by decide,
    boundary_zero_guard_noop ⟨[], 100, fun _ => false, true, false⟩ 5
      ⟨⟨"foo", 3, false, ""⟩, true, false, 0, [], true, false, false,
        ⟨[], none⟩⟩ rfl (by decide)⟩

theorem parseCommand_unmet_precondition_witness :
    (⟨[], 100, fun _ => false, false, false⟩ : ShellConfig).connected
        = false ∧
      ((jsSplitOnSpace (jsTrim "deploy").data).headD "" = "deploy" ∨
        (jsSplitOnSpace (jsTrim "deploy").data).headD "" = "solana" ∨
        (jsSplitOnSpace (jsTrim "deploy").data).headD "" = "spl-token") ∧
      parseCommand ⟨[], 100, fun _ => false, false, false⟩ (9 + 1)
          ⟨⟨"deploy", 6, false, ""⟩, false, false, 0, [], false, false, false,
            ⟨[], none⟩⟩ "deploy" =
        (⟨⟨"deploy", 6, false, ""⟩, false, false, 0, [], false, false, false,
            ⟨[], none⟩⟩, [Effect.enable]) :=
  ⟨rfl, Or.inl (by decide),
    parseCommand_unmet_precondition ⟨[], 100, fun _ => false, false, false⟩ 9
      ⟨⟨"deploy", 6, false, ""⟩, false, false, 0, [], false, false, false,
        ⟨[], none⟩⟩ "deploy" rfl (Or.inl (by decide))⟩

end SolPg
